import Mathlib

/-!
Verification of the Sentinel surveillance server's core pipeline
(`sentinel_server.alert`, `sentinel_server.video`, `sentinel_server.plugins`
and `sentinel_server.alert.filters`) against its natural-language
specification.

The Python code is shallowly embedded: classes become structures, methods
become pure functions threading the state explicitly, `await`-points have no
semantic weight on the single-threaded cooperative scheduler, and fallible
code (KeyError, AssertionError, TypeError, ValueError) returns `Except`.
Opaque runtime objects (raw streams, raw detectors, raw subscribers,
asyncio tasks, subscription handles) are identified by natural-number ids
allocated from counters; wall-clock times and float-valued fields are
modelled as rationals.
-/

namespace Sentinel

/-- The Python exception kinds the embedded code can raise. -/
inductive PyError where
  | keyError
  | assertionError
  | typeError
  | valueError
deriving DecidableEq, Repr

/-- Python `sentinel_core.plugins.ComponentKind`: the six component capability kinds. -/
inductive ComponentKind where
  | asyncVideoStream
  | syncVideoStream
  | asyncDetector
  | syncDetector
  | asyncSubscriber
  | syncSubscriber
deriving DecidableEq, Repr

/-- Python `sentinel_core.plugins.ComponentDescriptor`, reduced to the fields the
managers consult (`cls`, the argument descriptors and `args_transform` only
matter when instantiating the opaque raw object, which the embedding models
as allocating a fresh id). -/
structure Component where
  display_name : String
  kind : ComponentKind
deriving DecidableEq, Repr

/-! ### Association lists

Python `dict`s keyed by object identity or integer id are embedded as
insertion-ordered association lists over `Nat` keys (Python dicts preserve
insertion order; value assignment keeps the key's position). -/

/-- Dictionary lookup, `d[k]`-style (the caller decides whether a miss is a
`KeyError` or a `None`). -/
def alookup {α : Type} : List (Nat × α) → Nat → Option α
  | [], _ => none
  | (a, b) :: rest, k => if a = k then some b else alookup rest k

/-- Mutate the value stored under `k` in place (no-op for absent keys). -/
def aupdate {α : Type} : List (Nat × α) → Nat → (α → α) → List (Nat × α)
  | [], _, _ => []
  | (a, b) :: rest, k, f => (a, if a = k then f b else b) :: aupdate rest k f

/-- Python `d[k] = v`: assign in place when the key exists, append otherwise. -/
def ainsert {α : Type} (m : List (Nat × α)) (k : Nat) (v : α) : List (Nat × α) :=
  if (alookup m k).isSome then aupdate m k (fun _ => v) else m ++ [(k, v)]

theorem aupdate_keys {α : Type} (m : List (Nat × α)) (k : Nat) (f : α → α) :
    (aupdate m k f).map (·.1) = m.map (·.1) := by
  induction m with
  | nil => rfl
  | cons p rest ih =>
      obtain ⟨a, b⟩ := p
      simp [aupdate, ih]

theorem alookup_aupdate_self {α : Type} {m : List (Nat × α)} {k : Nat} {v : α}
    (f : α → α) (h : alookup m k = some v) :
    alookup (aupdate m k f) k = some (f v) := by
  induction m with
  | nil => simp [alookup] at h
  | cons p rest ih =>
      obtain ⟨a, b⟩ := p
      simp only [alookup] at h
      simp only [aupdate, alookup]
      by_cases hk : a = k
      · rw [if_pos hk] at h
        obtain rfl : b = v := Option.some.inj h
        rw [if_pos hk, if_pos hk]
      · rw [if_neg hk] at h
        rw [if_neg hk]
        exact ih h

theorem alookup_aupdate_ne {α : Type} (m : List (Nat × α)) {k k' : Nat}
    (f : α → α) (h : k' ≠ k) :
    alookup (aupdate m k f) k' = alookup m k' := by
  induction m with
  | nil => rfl
  | cons p rest ih =>
      obtain ⟨a, b⟩ := p
      simp only [aupdate, alookup]
      by_cases hk' : a = k'
      · rw [if_pos hk', if_pos hk']
        have hak : ¬ a = k := fun hc => h (hk'.symm.trans hc)
        rw [if_neg hak]
      · rw [if_neg hk', if_neg hk']
        exact ih

theorem aupdate_aupdate {α : Type} (m : List (Nat × α)) (k : Nat) (f g : α → α) :
    aupdate (aupdate m k f) k g = aupdate m k (g ∘ f) := by
  induction m with
  | nil => rfl
  | cons p rest ih =>
      obtain ⟨a, b⟩ := p
      simp only [aupdate, ih, List.cons.injEq, Prod.mk.injEq, true_and, and_true]
      by_cases hk : a = k
      · rw [if_pos hk, if_pos hk, if_pos hk, Function.comp_apply]
      · rw [if_neg hk, if_neg hk, if_neg hk]

theorem aupdate_id {α : Type} {m : List (Nat × α)} {k : Nat} {f : α → α}
    (h : ∀ p ∈ m, p.1 = k → f p.2 = p.2) : aupdate m k f = m := by
  induction m with
  | nil => rfl
  | cons p rest ih =>
      obtain ⟨a, b⟩ := p
      have hrest : aupdate rest k f = rest :=
        ih (fun q hq => h q (List.mem_cons_of_mem _ hq))
      simp only [aupdate, hrest, List.cons.injEq, Prod.mk.injEq, true_and, and_true]
      by_cases hk : a = k
      · rw [if_pos hk]
        exact h (a, b) (List.mem_cons_self _ _) hk
      · rw [if_neg hk]

theorem alookup_mem {α : Type} {m : List (Nat × α)} {k : Nat} {v : α}
    (h : alookup m k = some v) : (k, v) ∈ m := by
  induction m with
  | nil => simp [alookup] at h
  | cons p rest ih =>
      obtain ⟨a, b⟩ := p
      simp only [alookup] at h
      by_cases hk : a = k
      · rw [if_pos hk] at h
        obtain rfl : b = v := Option.some.inj h
        subst hk
        exact List.mem_cons_self _ _
      · rw [if_neg hk] at h
        exact List.mem_cons_of_mem _ (ih h)

theorem alookup_isSome_of_mem_keys {α : Type} {m : List (Nat × α)} {k : Nat}
    (h : k ∈ m.map (·.1)) : (alookup m k).isSome := by
  induction m with
  | nil => simp at h
  | cons p rest ih =>
      obtain ⟨a, b⟩ := p
      simp only [List.map_cons, List.mem_cons] at h
      by_cases hk : a = k
      · simp only [alookup]
        rw [if_pos hk]
        rfl
      · rcases h with h1 | h1
        · exact absurd h1.symm hk
        · simp only [alookup]
          rw [if_neg hk]
          exact ih h1

theorem alookup_eq_of_keys_nodup {α : Type} {m : List (Nat × α)} {k : Nat} {v : α}
    (hnd : (m.map (·.1)).Nodup) (h : alookup m k = some v) :
    ∀ p ∈ m, p.1 = k → p.2 = v := by
  induction m with
  | nil => intro p hp; simp at hp
  | cons q rest ih =>
      intro p hp hpk
      obtain ⟨a, b⟩ := q
      simp only [List.map_cons, List.nodup_cons] at hnd
      rcases List.mem_cons.mp hp with h1 | h1
      · subst h1
        have hak : a = k := hpk
        simp only [alookup] at h
        rw [if_pos hak] at h
        exact Option.some.inj h
      · by_cases hak : a = k
        · exfalso
          apply hnd.1
          rw [hak, ← hpk]
          exact List.mem_map_of_mem (·.1) h1
        · simp only [alookup] at h
          rw [if_neg hak] at h
          exact ih hnd.2 h p h1 hpk

/-! ### Cooldown filter (`sentinel_server/alert/filters.py`)

`Cooldown` is both an emitter and a subscriber: `notify` reads the
wall-clock, enqueues the alert when at least `duration` seconds have passed
since `_time_start`, and drops it otherwise.  The wall-clock value observed
by `time.time()` inside `notify` is passed in explicitly; an alert is
identified by its arrival time. -/

structure Cooldown where
  time_start : ℚ
  duration : ℚ
  queue : List ℚ
deriving DecidableEq, Repr

/-- Python `Cooldown.notify(alert)` observed at wall-clock time `t`:
`if cur_time >= self._time_start + self._duration: self._time_start = cur_time;
await self._queue.put(alert)`. -/
def Cooldown.notify (c : Cooldown) (t : ℚ) : Cooldown :=
  if c.time_start + c.duration ≤ t then
    { c with time_start := t, queue := c.queue ++ [t] }
  else c

/-- Feed a sequence of alerts arriving at the given wall-clock times through a
fresh `Cooldown(duration)` (`_time_start` is initialised to `0` by
`__init__`) and read off the queue of enqueued alerts. -/
def Cooldown.run (duration : ℚ) (ts : List ℚ) : List ℚ :=
  (ts.foldl Cooldown.notify { time_start := 0, duration := duration, queue := [] }).queue

/-- The greedy subset of arrival times that pass a cooldown of length `D`
when the previous passed time (initially `last`) gates each arrival:
`t` passes iff `last + D ≤ t`. -/
def greedyFrom (last D : ℚ) : List ℚ → List ℚ
  | [] => []
  | t :: ts => if last + D ≤ t then t :: greedyFrom t D ts else greedyFrom last D ts

/-- Modelled from the spec's words for comparison with `Cooldown.run`: the
claim's greedy rule in which "the first alert of the sequence always
passes" and each later alert passes iff it is at least `D` after the
previous passed one. -/
def specGreedyFirstPasses (D : ℚ) : List ℚ → List ℚ
  | [] => []
  | t :: ts => t :: greedyFrom t D ts

theorem cooldown_foldl_queue (D : ℚ) :
    ∀ (ts : List ℚ) (st : Cooldown), st.duration = D →
      (ts.foldl Cooldown.notify st).queue = st.queue ++ greedyFrom st.time_start D ts := by
  intro ts
  induction ts with
  | nil => intro st _; simp [greedyFrom]
  | cons t rest ih =>
      intro st hD
      by_cases h : st.time_start + st.duration ≤ t
      · have h' : st.time_start + D ≤ t := by rw [← hD]; exact h
        simp only [List.foldl_cons, Cooldown.notify, if_pos h]
        rw [ih _ (by simp [hD])]
        simp [greedyFrom, h', List.append_assoc]
      · have h' : ¬ st.time_start + D ≤ t := by rw [← hD]; exact h
        simp only [List.foldl_cons, Cooldown.notify, if_neg h]
        rw [ih _ hD]
        simp [greedyFrom, h']

/-- Claim C2 (counterexample): with `duration = 2` and arrivals at wall-clock
times `0.0, 0.5, 1.0, 2.5, 4.6`, the code enqueues only the alerts at `2.5`
and `4.6` — the first alert does not pass, because `_time_start` is
initialised to `0` and `0.0 ≥ 0 + 2` is false — whereas the claimed rule
("the first alert of the sequence always passing") would enqueue
`0.0, 2.5, 4.6`. -/
theorem C2_cooldown_first_alert_dropped :
    Cooldown.run 2 [0, 1/2, 1, 5/2, 23/5] = [5/2, 23/5] ∧
    specGreedyFirstPasses 2 [0, 1/2, 1, 5/2, 23/5] = [0, 5/2, 23/5] ∧
    Cooldown.run 2 [0, 1/2, 1, 5/2, 23/5] ≠ specGreedyFirstPasses 2 [0, 1/2, 1, 5/2, 23/5] := by
  refine ⟨?_, ?_, ?_⟩ <;>
    norm_num [Cooldown.run, Cooldown.notify, greedyFrom, specGreedyFirstPasses]

/-- Claim C2 (amended): the enqueued alerts are exactly the greedy subset in
which an alert at time `t` passes iff `t ≥ last_allowed + D`, where
`last_allowed` is the time of the previous passed alert and is initialised
to `0` (so the first alert passes only when its time is at least `D`); with
`D = 2` and arrivals at wall-clock times `100.0, 100.5, 101.0, 102.5,
104.6` (offsets `0.0, 0.5, 1.0, 2.5, 4.6` from a start time `≥ D`),
exactly the alerts at offsets `0.0, 2.5, 4.6` are enqueued, in arrival
order. -/
theorem C2_cooldown_greedy_from_zero :
    (∀ (D : ℚ) (ts : List ℚ), Cooldown.run D ts = greedyFrom 0 D ts) ∧
    Cooldown.run 2 [100, 201/2, 101, 205/2, 523/5] = [100, 205/2, 523/5] := by
  constructor
  · intro D ts
    simpa [Cooldown.run] using cooldown_foldl_queue D ts _ rfl
  · norm_num [Cooldown.run, Cooldown.notify, greedyFrom]

/-! ### Alerts and detections (`sentinel_core`)

`Alert.data` is a `dict[str, Any]`; the only payloads the embedded code ever
stores there are lists of strings (`{"detections": [names...]}`), so the
payload type is specialised accordingly.  Timestamps are rationals, frames
are opaque ids. -/

structure Alert where
  header : String
  description : String
  source : String
  source_type : String
  timestamp : ℚ
  data : List (String × List String)
deriving DecidableEq, Repr

structure BoundingBox where
  x : Int
  y : Int
  width : Int
  height : Int
deriving DecidableEq, Repr

structure PredictedCategory where
  name : String
  score : Option ℚ
deriving DecidableEq, Repr

structure Detection where
  pred_categories : List PredictedCategory
  bounding_box : BoundingBox
deriving DecidableEq, Repr

structure DetectionResult where
  frame : Nat
  detections : List Detection
deriving DecidableEq, Repr

/-! ### SubscriptionRegistrar (`sentinel_server/alert/__init__.py`)

Raw emitters, reactive subscribers, asyncio tasks and subscription handles
are opaque objects compared by identity; they are embedded as `Nat` ids
(the reactive wrapper around a raw emitter or subscriber is identified with
the raw object's id, since the wrapping is a bijection).  Fresh handle and
task ids are drawn from `next_id`; every `dispose_async()` call appends the
disposed handle to `dispose_log`, so "disposed exactly once" is the count
of the handle in that list. -/

structure SubscriptionRegistrar where
  emitters : List (Nat × Option Nat)
  subscribers : List Nat
  subscriptions : List ((Nat × Nat) × Nat)
  dispose_log : List Nat
  next_id : Nat
deriving DecidableEq, Repr

/-- Python `SubscriptionRegistrar.__init__`. -/
def SubscriptionRegistrar.empty : SubscriptionRegistrar :=
  { emitters := [], subscribers := [], subscriptions := [], dispose_log := [], next_id := 0 }

/-- Python `add_emitter(raw_emitter)`: assert the raw emitter is not already wrapped
by a registered emitter, subscribe every current subscriber to it (one
fresh handle each, in list order), then start the emitter's driver task. -/
def SubscriptionRegistrar.add_emitter (r : SubscriptionRegistrar) (e : Nat) :
    Except PyError SubscriptionRegistrar :=
  if (alookup r.emitters e).isSome then .error .assertionError
  else
    let newSubs := r.subscribers.enum.map (fun p => ((e, p.2), r.next_id + p.1))
    let taskId := r.next_id + r.subscribers.length
    .ok { emitters := r.emitters ++ [(e, some taskId)],
          subscribers := r.subscribers,
          subscriptions := r.subscriptions ++ newSubs,
          dispose_log := r.dispose_log,
          next_id := r.next_id + r.subscribers.length + 1 }

/-- Python `add_async_subscriber(raw_subscriber)`: assert it is not already
registered, append it, then subscribe it to every current emitter (one
fresh handle each, in emitter order). -/
def SubscriptionRegistrar.add_async_subscriber (r : SubscriptionRegistrar) (s : Nat) :
    Except PyError SubscriptionRegistrar :=
  if r.subscribers.contains s then .error .assertionError
  else
    let newSubs := r.emitters.enum.map (fun p => ((p.2.1, s), r.next_id + p.1))
    .ok { r with
          subscribers := r.subscribers ++ [s],
          subscriptions := r.subscriptions ++ newSubs,
          next_id := r.next_id + r.emitters.length }

/-- Python `add_sync_subscriber(raw_subscriber)`: wraps the synchronous subscriber in
an `AsyncSubscriberWrapper` (identified with the raw id here — the stored
identity stands for "the subscriber or its wrapper", which is how
`remove_subscriber` looks it up) and delegates to `add_async_subscriber`. -/
def SubscriptionRegistrar.add_sync_subscriber (r : SubscriptionRegistrar) (s : Nat) :
    Except PyError SubscriptionRegistrar :=
  r.add_async_subscriber s

/-- Python `remove_emitter(raw_emitter)`: an unknown emitter returns `False`;
otherwise `_stop_emitter` pauses the driver task and closes the emitter's
subject (no effect on the registrar's maps), every subscription whose
emitter is the removed one is disposed — and, because the source appends
every key to `keys_to_remove` (the append sits outside the
`if em is emitter` test), the whole subscription map is cleared — then the
emitter entry itself is deleted. -/
def SubscriptionRegistrar.remove_emitter (r : SubscriptionRegistrar) (e : Nat) :
    Bool × SubscriptionRegistrar :=
  match alookup r.emitters e with
  | none => (false, r)
  | some _ =>
      let disposedNow := (r.subscriptions.filter (fun q => q.1.1 == e)).map (·.2)
      (true, { r with
        subscriptions := [],
        dispose_log := r.dispose_log ++ disposedNow,
        emitters := r.emitters.filter (fun p => p.1 != e) })

/-- Python `remove_subscriber(raw_subscriber)`: an unknown subscriber (neither
directly registered nor wrapped) returns `False`; otherwise every
subscription whose subscriber is the removed one is disposed — and, as in
`remove_emitter`, the whole subscription map is cleared — the subscriber is
closed (`clean_up`, external) and removed from the list. -/
def SubscriptionRegistrar.remove_subscriber (r : SubscriptionRegistrar) (s : Nat) :
    Bool × SubscriptionRegistrar :=
  if r.subscribers.contains s then
    let disposedNow := (r.subscriptions.filter (fun q => q.1.2 == s)).map (·.2)
    (true, { r with
      subscriptions := [],
      dispose_log := r.dispose_log ++ disposedNow,
      subscribers := r.subscribers.filter (fun x => x != s) })
  else (false, r)

/-- A registrar holding one subscriber (id `10`) and two emitters (ids `1`
and `2`), built through the registrar's own operations: the handle for
`(1, 10)` is `0` and the handle for `(2, 10)` is `2`. -/
def c1Registrar : Except PyError SubscriptionRegistrar := do
  let r1 ← SubscriptionRegistrar.empty.add_async_subscriber 10
  let r2 ← r1.add_emitter 1
  r2.add_emitter 2

/-- Claim C1 (the code diverges): in a registrar with subscriber `10` and
emitters `1` and `2`, `remove_emitter(1)` disposes the handle of `(1, 10)`
exactly once and removes emitter `1`, but it also deletes the recorded pair
`(2, 10)` from the subscription map without disposing its handle `2` — the
subscription map comes back empty, although the claim requires `(2, 10)` to
remain recorded with its one handle. -/
theorem C1_remove_emitter_clears_unrelated_pairs :
    c1Registrar = .ok { emitters := [(1, some 1), (2, some 3)], subscribers := [10],
                        subscriptions := [((1, 10), 0), ((2, 10), 2)],
                        dispose_log := [], next_id := 4 } ∧
    SubscriptionRegistrar.remove_emitter
        { emitters := [(1, some 1), (2, some 3)], subscribers := [10],
          subscriptions := [((1, 10), 0), ((2, 10), 2)],
          dispose_log := [], next_id := 4 } 1 =
      (true, { emitters := [(2, some 3)], subscribers := [10],
               subscriptions := [], dispose_log := [0], next_id := 4 }) := by
  exact ⟨rfl, by decide⟩

/-! ### ReactiveSubscriber delivery (`sentinel_server/alert/__init__.py`)

A raw subscriber's `notify` behaviour on a given alert (alerts identified by
id): `none` means it returned normally, `some e` that it raised `e`. -/

def RawNotify : Type := Nat → Option PyError

/-- Python `ReactiveSubscriber.asend(alert)`:
`try: await self._raw_sub.notify(alert) except Exception as ex:
logger.error(...)` — an exception from the raw subscriber is caught and
logged, and `asend` returns normally. -/
def ReactiveSubscriber.asend (raw : RawNotify) (alert : Nat) : Except PyError Unit :=
  match raw alert with
  | none => .ok ()
  | some _ => .ok ()

/-- Python `AsyncSubject.asend` of the third-party `aioreactive` library, per the
spec's §4.1 contract: fan out to the current observers, awaiting each in
turn; an exception escaping an observer's `asend` propagates and aborts the
remaining deliveries.  The observers here are `ReactiveSubscriber`s; the
result collects the ids of the subscribers whose delivery was attempted and
completed. -/
def subjectFanOut (observers : List (Nat × RawNotify)) (alert : Nat) :
    Except PyError (List Nat) :=
  match observers with
  | [] => .ok []
  | (i, raw) :: rest =>
      match ReactiveSubscriber.asend raw alert with
      | .error e => .error e
      | .ok _ => (subjectFanOut rest alert).map (fun l => i :: l)

theorem reactiveSubscriber_asend_ok (raw : RawNotify) (alert : Nat) :
    ReactiveSubscriber.asend raw alert = .ok () := by
  unfold ReactiveSubscriber.asend
  cases raw alert <;> rfl

/-- Claim C9: whatever each raw subscriber's `notify` does on each alert —
raise or return — the reactive-subscriber adapter catches the exception and
`asend` returns normally, so the subject's sequential fan-out completes and
every registered subscriber's delivery is attempted exactly once, in
registration order; no subscriber is removed by a failed delivery. -/
theorem C9_delivery_exception_swallowed :
    ∀ (observers : List (Nat × RawNotify)) (alert : Nat),
      subjectFanOut observers alert = .ok (observers.map (·.1)) := by
  intro observers alert
  induction observers with
  | nil => rfl
  | cons p rest ih =>
      obtain ⟨i, raw⟩ := p
      simp [subjectFanOut, reactiveSubscriber_asend_ok, ih, Except.map]

/-! ### VideoSourceAlertEmitter (`sentinel_server/video/__init__.py`)

`asend` drops empty detection results; otherwise, for each detection it
takes `max(detection.pred_categories, key=score-or-negative-infinity)` and
enqueues the alert built from the chosen names. -/

/-- Strict comparison of the emitter's sort key
`cat.score if cat.score is not None else -math.inf`: a missing score
compares as negative infinity. -/
def scoreLt : Option ℚ → Option ℚ → Bool
  | none, none => false
  | none, some _ => true
  | some _, none => false
  | some x, some y => decide (x < y)

/-- One step of Python's `max(..., key=...)`: keep the current best, replace
it when the candidate's key is strictly greater (ties keep the earliest). -/
def chooseStep (best cat : PredictedCategory) : PredictedCategory :=
  if scoreLt best.score cat.score then cat else best

/-- Python `max(detection.pred_categories, key=...)`: raises `ValueError` on an empty
sequence, otherwise folds `chooseStep` from the first element. -/
def chooseCategory : List PredictedCategory → Except PyError PredictedCategory
  | [] => .error .valueError
  | c :: rest => .ok (rest.foldl chooseStep c)

/-- The loop in `VideoSourceAlertEmitter.asend` accumulating `objects`: the
most-likely category name of each detection, in order. -/
def chooseNames : List Detection → Except PyError (List String)
  | [] => .ok []
  | d :: rest =>
      match chooseCategory d.pred_categories, chooseNames rest with
      | .error e, _ => .error e
      | .ok _, .error e => .error e
      | .ok c, .ok ns => .ok (c.name :: ns)

/-- Python `VideoSourceAlertEmitter.asend(dr)` observed at wall-clock `now` for the
video source named `sourceName`, acting on the emitter's internal queue: an
empty detection list returns without enqueueing; otherwise the alert built
in the source is appended. -/
def VideoSourceAlertEmitter.asend (sourceName : String) (now : ℚ) (queue : List Alert)
    (dr : DetectionResult) : Except PyError (List Alert) :=
  if dr.detections.isEmpty then .ok queue
  else
    (chooseNames dr.detections).map (fun objects =>
      queue ++ [{ header := "Camera Alert",
                  description := "Detected: " ++ String.intercalate ", " objects,
                  source := sourceName,
                  source_type := "Video Source",
                  timestamp := now,
                  data := [("detections", objects)] }])

theorem scoreLt_irrefl (s : Option ℚ) : scoreLt s s = false := by
  cases s <;> simp [scoreLt]

theorem scoreLt_trans {a b c : Option ℚ} (h1 : scoreLt a b = true)
    (h2 : scoreLt b c = true) : scoreLt a c = true := by
  cases b with
  | none => exact absurd h1 (by cases a <;> simp [scoreLt])
  | some y =>
    cases c with
    | none => exact absurd h2 (by simp [scoreLt])
    | some z =>
      cases a with
      | none => rfl
      | some x =>
          simp only [scoreLt, decide_eq_true_eq] at h1 h2 ⊢
          exact lt_trans h1 h2

theorem scoreLt_of_lt_of_not_lt {a b c : Option ℚ} (h1 : scoreLt a c = true)
    (h2 : scoreLt b c = false) : scoreLt a b = true := by
  cases c with
  | none => exact absurd h1 (by cases a <;> simp [scoreLt])
  | some z =>
    cases b with
    | none => exact absurd h2 (by simp [scoreLt])
    | some y =>
      cases a with
      | none => rfl
      | some x =>
          simp only [scoreLt, decide_eq_true_eq] at h1 ⊢
          simp only [scoreLt, decide_eq_false_iff_not] at h2
          exact lt_of_lt_of_le h1 (le_of_not_lt h2)

theorem chooseFold_spec :
    ∀ (rest : List PredictedCategory) (b : PredictedCategory),
      (List.foldl chooseStep b rest) ∈ b :: rest ∧
      ∀ c ∈ b :: rest, scoreLt (List.foldl chooseStep b rest).score c.score = false := by
  intro rest
  induction rest with
  | nil =>
      intro b
      refine ⟨List.mem_cons_self _ _, ?_⟩
      intro c hc
      rcases List.mem_cons.mp hc with h | h
      · subst h; exact scoreLt_irrefl _
      · simp at h
  | cons cat rest ih =>
      intro b
      obtain ⟨hmem, hmax⟩ := ih (chooseStep b cat)
      have hfold : List.foldl chooseStep b (cat :: rest)
          = List.foldl chooseStep (chooseStep b cat) rest := by
        simp [List.foldl_cons]
      set r := List.foldl chooseStep (chooseStep b cat) rest with hr
      have hhead : scoreLt r.score (chooseStep b cat).score = false :=
        hmax _ (List.mem_cons_self _ _)
      cases hbc : scoreLt b.score cat.score with
      | true =>
        -- replacement happened: the running best is `cat`
        have hs : chooseStep b cat = cat := by simp [chooseStep, hbc]
        rw [hs] at hhead
        constructor
        · rw [hfold]
          rcases List.mem_cons.mp hmem with h | h
          · rw [h, hs]
            exact List.mem_cons_of_mem _ (List.mem_cons_self _ _)
          · exact List.mem_cons_of_mem _ (List.mem_cons_of_mem _ h)
        · intro c hc
          rw [hfold]
          rcases List.mem_cons.mp hc with h | h
          · -- c = b: r is not above cat, and b is strictly below cat
            subst h
            cases hx : scoreLt r.score c.score with
            | false => rfl
            | true => exact absurd (scoreLt_trans hx hbc) (by simp [hhead])
          · rcases List.mem_cons.mp h with h1 | h1
            · subst h1
              exact hhead
            · exact hmax c (List.mem_cons_of_mem _ h1)
      | false =>
        -- no replacement: the running best stays `b`
        have hs : chooseStep b cat = b := by simp [chooseStep, hbc]
        rw [hs] at hhead
        constructor
        · rw [hfold]
          rcases List.mem_cons.mp hmem with h | h
          · rw [h, hs]
            exact List.mem_cons_self _ _
          · exact List.mem_cons_of_mem _ (List.mem_cons_of_mem _ h)
        · intro c hc
          rw [hfold]
          rcases List.mem_cons.mp hc with h | h
          · subst h
            exact hhead
          · rcases List.mem_cons.mp h with h1 | h1
            · -- c = cat: r is not above b and cat is not above b
              subst h1
              cases hx : scoreLt r.score c.score with
              | false => rfl
              | true => exact absurd (scoreLt_of_lt_of_not_lt hx hbc) (by simp [hhead])
            · exact hmax c (List.mem_cons_of_mem _ h1)

theorem chooseCategory_spec {cs : List PredictedCategory} (h : cs ≠ []) :
    ∃ ch, chooseCategory cs = .ok ch ∧ ch ∈ cs ∧
      ∀ c ∈ cs, scoreLt ch.score c.score = false := by
  cases cs with
  | nil => exact absurd rfl h
  | cons c rest =>
      obtain ⟨hmem, hmax⟩ := chooseFold_spec rest c
      exact ⟨_, rfl, hmem, hmax⟩

theorem chooseNames_spec :
    ∀ (ds : List Detection), (∀ d ∈ ds, d.pred_categories ≠ []) →
      ∃ names, chooseNames ds = .ok names ∧
        List.Forall₂ (fun d nm => ∃ c, c ∈ d.pred_categories ∧ c.name = nm ∧
          ∀ c' ∈ d.pred_categories, scoreLt c.score c'.score = false) ds names := by
  intro ds
  induction ds with
  | nil => exact fun _ => ⟨[], rfl, List.Forall₂.nil⟩
  | cons d rest ih =>
      intro h
      obtain ⟨ch, hch, hmem, hmax⟩ := chooseCategory_spec (h d (List.mem_cons_self _ _))
      obtain ⟨names, hnames, hrel⟩ := ih (fun d' hd' => h d' (List.mem_cons_of_mem _ hd'))
      refine ⟨ch.name :: names, ?_, List.Forall₂.cons ⟨ch, hmem, rfl, hmax⟩ hrel⟩
      simp [chooseNames, hch, hnames]

/-- Claim C7: on a non-empty `DetectionResult` (each detection carrying at
least one predicted category, as the data model requires), the enqueued
alert picks for each detection a category whose score is maximal under the
missing-score-is-negative-infinity ordering, and has header
`"Camera Alert"`, description `"Detected: "` followed by the chosen names
joined by `", "`, the source's name as `source`, `source_type`
`"Video Source"`, and `data` mapping `"detections"` to the chosen names. -/
theorem C7_emitter_builds_alert_from_max_categories :
    ∀ (sourceName : String) (now : ℚ) (queue : List Alert) (dr : DetectionResult),
      dr.detections ≠ [] →
      (∀ d ∈ dr.detections, d.pred_categories ≠ []) →
      ∃ names,
        VideoSourceAlertEmitter.asend sourceName now queue dr =
          .ok (queue ++ [{ header := "Camera Alert",
                           description := "Detected: " ++ String.intercalate ", " names,
                           source := sourceName,
                           source_type := "Video Source",
                           timestamp := now,
                           data := [("detections", names)] }]) ∧
        List.Forall₂ (fun d nm => ∃ c, c ∈ d.pred_categories ∧ c.name = nm ∧
          ∀ c' ∈ d.pred_categories, scoreLt c.score c'.score = false) dr.detections names := by
  intro sourceName now queue dr hne hcat
  obtain ⟨names, hnames, hrel⟩ := chooseNames_spec dr.detections hcat
  refine ⟨names, ?_, hrel⟩
  have hempty : dr.detections.isEmpty = false := by
    cases h : dr.detections with
    | nil => exact absurd h hne
    | cons d ds => rfl
  simp [VideoSourceAlertEmitter.asend, hempty, hnames, Except.map]

/-- A two-detection result: the first detection's best category is `"person"`
(score 0.9 beats a missing score), the second's is `"car"` (score 0.5 beats
a missing score even though `"cat"` comes first). -/
def c7Detections : DetectionResult :=
  { frame := 0,
    detections :=
      [{ pred_categories := [⟨"person", some (9/10)⟩, ⟨"dog", none⟩],
         bounding_box := ⟨1, 1, 3, 3⟩ },
       { pred_categories := [⟨"cat", none⟩, ⟨"car", some (1/2)⟩],
         bounding_box := ⟨0, 0, 2, 2⟩ }] }

theorem C7_emitter_builds_alert_from_max_categories_witness :
    c7Detections.detections ≠ [] ∧
    (∀ d ∈ c7Detections.detections, d.pred_categories ≠ []) ∧
    (∃ names,
      VideoSourceAlertEmitter.asend "cam1" 5 [] c7Detections =
        .ok ([] ++ [{ header := "Camera Alert",
                      description := "Detected: " ++ String.intercalate ", " names,
                      source := "cam1",
                      source_type := "Video Source",
                      timestamp := 5,
                      data := [("detections", names)] }]) ∧
      List.Forall₂ (fun d nm => ∃ c, c ∈ d.pred_categories ∧ c.name = nm ∧
        ∀ c' ∈ d.pred_categories, scoreLt c.score c'.score = false)
        c7Detections.detections names) :=
  ⟨by decide, by decide,
   C7_emitter_builds_alert_from_max_categories "cam1" 5 [] c7Detections
     (by decide) (by decide)⟩

/-! ### ReactiveDetector (`sentinel_server/video/detect.py`)

Only the constructor-visible state is modelled (`_raw_detector`,
`_time_last`, `_interval`); the output subject is external. -/

structure ReactiveDetector where
  raw_detector : Nat
  time_last : ℚ
  interval : ℚ
deriving DecidableEq, Repr

/-- Python `ReactiveDetector.__init__(raw_detector, interval=1)`. -/
def ReactiveDetector.mkNew (raw : Nat) (interval : ℚ := 1) : ReactiveDetector :=
  { raw_detector := raw, time_last := 0, interval := interval }

/-- Python `ReactiveDetector.from_sync_detector(raw_detector)`: wraps the synchronous
detector in an `AsyncDetectorWrapper` (identity on the opaque id here) and
calls `cls(async_detector)` — the classmethod's signature has no `interval`
parameter, so the constructor's default `interval = 1` applies. -/
def ReactiveDetector.from_sync_detector (raw : Nat) : ReactiveDetector :=
  ReactiveDetector.mkNew raw

/-! ### Persistence rows (`sentinel_server/models.py`)

Rows of the `video_source` and `alert` tables; the plugin/component name and
config columns of `video_source` are not consulted by the operations
embedded below (component descriptors are carried on the in-memory
`VideoSource` itself) and are omitted.  The `alert` table's JSON `data`
column is likewise omitted. -/

structure VsRow where
  id : Nat
  name : String
  enabled : Bool
  detect_interval : ℚ
deriving DecidableEq, Repr

structure AlertRow where
  id : Nat
  header : String
  description : String
  source : String
  source_type : String
  source_deleted : Bool
  timestamp : ℚ
deriving DecidableEq, Repr

/-- Python `db_info.save()` on a row store: update the row with the same id in place,
or insert the row if it is new. -/
def saveVsRow (rows : List VsRow) (row : VsRow) : List VsRow :=
  if rows.any (fun r => r.id == row.id) then
    rows.map (fun r => if r.id == row.id then row else r)
  else rows ++ [row]

/-! ### AlertManager persistence queries (`sentinel_server/alert/__init__.py`) -/

/-- Python `AlertManager.get_alerts(source=None)`: all rows;
`get_alerts(source=s)`: `DbAlert.filter(source=s, source_deleted=False)`. -/
def AlertManager.get_alerts (db : List AlertRow) (source : Option String) : List AlertRow :=
  match source with
  | none => db
  | some s => db.filter (fun r => r.source == s && r.source_deleted == false)

/-- Python `AlertManager.mark_source_deleted(source)`: set `source_deleted = True` on
every row whose `source` matches. -/
def AlertManager.mark_source_deleted (db : List AlertRow) (source : String) : List AlertRow :=
  db.map (fun r => if r.source == source then { r with source_deleted := true } else r)

theorem get_alerts_mark_source_deleted_nil (db : List AlertRow) (s : String) :
    AlertManager.get_alerts (AlertManager.mark_source_deleted db s) (some s) = [] := by
  simp only [AlertManager.get_alerts, AlertManager.mark_source_deleted]
  rw [List.filter_eq_nil_iff]
  intro a ha
  obtain ⟨r, hr, rfl⟩ := List.mem_map.mp ha
  by_cases hsrc : r.source = s
  · simp [hsrc]
  · simp [hsrc]

theorem mark_source_deleted_mem {db : List AlertRow} {s : String} {r : AlertRow}
    (h : r ∈ db) :
    (r.source = s → { r with source_deleted := true } ∈ AlertManager.mark_source_deleted db s) ∧
    (r.source ≠ s → r ∈ AlertManager.mark_source_deleted db s) := by
  constructor
  · intro hs
    have : { r with source_deleted := true }
        = (fun q => if q.source == s then { q with source_deleted := true } else q) r := by
      simp [hs]
    rw [this]
    exact List.mem_map_of_mem _ h
  · intro hs
    have : r = (fun q => if q.source == s then { q with source_deleted := true } else q) r := by
      simp [hs]
    rw [this]
    exact List.mem_map_of_mem _ h

/-! ### VideoSource and VideoSourceManager (`sentinel_server/video/__init__.py`)

A `VideoSource` couples the persisted row with runtime-only state.  Raw
streams, reactive video streams, asyncio tasks, emitters, observers and
subscription handles are opaque ids.  The manager's state gathers the
`id → VideoSource` dictionary, the persisted tables, the registrar, a log
of disposed detector-subject subscription handles and a counter for fresh
ids.  (`_task_exception_callbacks` / `_status_change_callbacks` invoke
external code and are not modelled.) -/

structure VideoSource where
  db_info : VsRow
  status : Bool  -- `VideoSourceStatus`: `true` = Ok, `false` = Error
  subscribers : List (Nat × Option Nat)
  vidstream_component : Option Component
  detector_component : Option Component
  video_stream : Option Nat
  detector : Option ReactiveDetector
  detector_sub : Option Nat
  emitter : Option Nat
  task : Option Nat
deriving DecidableEq, Repr

structure ManagerState where
  video_sources : List (Nat × VideoSource)
  db_video_sources : List VsRow
  alert_db : List AlertRow
  registrar : SubscriptionRegistrar
  dispose_log : List Nat
  next_obj : Nat
deriving DecidableEq, Repr

namespace VideoSourceManager

/-- Python `subscribe_to(id, observer)`: `self._video_sources[id]` (KeyError when
absent); record the observer with `subscribers[observer] = None`; if the
detector is live, immediately subscribe the observer to it (fresh handle)
and store the handle. -/
def subscribe_to (st : ManagerState) (id o : Nat) : Except PyError ManagerState :=
  match alookup st.video_sources id with
  | none => .error .keyError
  | some vs =>
      let st1 := { st with
        video_sources := aupdate st.video_sources id
          (fun v => { v with subscribers := ainsert v.subscribers o none }) }
      match vs.detector with
      | none => .ok st1
      | some _ =>
          let h := st1.next_obj
          .ok { st1 with
            next_obj := st1.next_obj + 1,
            video_sources := aupdate st1.video_sources id
              (fun v => { v with subscribers := ainsert v.subscribers o (some h) }) }

/-- Python `unsubscribe_from(id, observer, _hard)`: unknown id returns `False`;
`vid_src.subscribers[observer]` raises KeyError when the observer is not
recorded; a live handle is disposed and the slot set to `None`; `_hard`
removes the slot entirely. -/
def unsubscribe_from (st : ManagerState) (id o : Nat) (hard : Bool) :
    Except PyError (Bool × ManagerState) :=
  match alookup st.video_sources id with
  | none => .ok (false, st)
  | some vs =>
      match alookup vs.subscribers o with
      | none => .error .keyError
      | some sub =>
          let st1 := match sub with
            | none => st
            | some h =>
                { st with
                  dispose_log := st.dispose_log ++ [h],
                  video_sources := aupdate st.video_sources id
                    (fun v => { v with subscribers := aupdate v.subscribers o (fun _ => none) }) }
          if hard then
            .ok (true, { st1 with
              video_sources := aupdate st1.video_sources id
                (fun v => { v with subscribers := v.subscribers.filter (fun p => p.1 != o) }) })
          else .ok (true, st1)

/-- Python `_start_video_stream(id)`: a live stream returns `True` without change; a
missing component returns `False`; otherwise the raw stream is instantiated
from the component (async directly, sync through the adapter — both yield a
`ReactiveVideoStream`, a fresh opaque id here) and a driver task is
spawned. -/
def _start_video_stream (st : ManagerState) (id : Nat) : Except PyError (Bool × ManagerState) :=
  match alookup st.video_sources id with
  | none => .error .keyError
  | some vs =>
      if vs.video_stream.isSome then .ok (true, st)
      else
        match vs.vidstream_component with
        | none => .ok (false, st)
        | some _ =>
            let streamId := st.next_obj
            let taskId := st.next_obj + 1
            .ok (true, { st with
              next_obj := st.next_obj + 2,
              video_sources := aupdate st.video_sources id
                (fun v => { v with video_stream := some streamId, task := some taskId }) })

/-- Python `_start_detector(id)`: asserts the reactive video stream exists; a live
detector returns `True` without change; a missing component returns
`False`.  An `AsyncDetector` component yields
`ReactiveDetector(raw_detector, interval=vid_src.detect_interval)`,
subscribed to the stream (fresh handle).  Any other kind falls into the
synchronous branch, which calls
`ReactiveDetector.from_sync_detector(raw_detector, interval=...)` — a
`TypeError`, since `from_sync_detector` accepts no `interval` keyword. -/
def _start_detector (st : ManagerState) (id : Nat) : Except PyError (Bool × ManagerState) :=
  match alookup st.video_sources id with
  | none => .error .keyError
  | some vs =>
      if vs.video_stream.isNone then .error .assertionError
      else if vs.detector.isSome then .ok (true, st)
      else
        match vs.detector_component with
        | none => .ok (false, st)
        | some comp =>
            let rawId := st.next_obj
            if comp.kind = ComponentKind.asyncDetector then
              let det := ReactiveDetector.mkNew rawId vs.db_info.detect_interval
              let subId := st.next_obj + 1
              .ok (true, { st with
                next_obj := st.next_obj + 2,
                video_sources := aupdate st.video_sources id
                  (fun v => { v with detector := some det, detector_sub := some subId }) })
            else .error .typeError

/-- Python `_stop_video_stream(id)`: no live stream returns `False`; otherwise
`stream.stop()` cleans up the raw stream and closes the subject, the driver
loop exits and the task-done callback clears the task handle. -/
def _stop_video_stream (st : ManagerState) (id : Nat) : Except PyError (Bool × ManagerState) :=
  match alookup st.video_sources id with
  | none => .error .keyError
  | some vs =>
      match vs.video_stream with
      | none => .ok (false, st)
      | some _ =>
          .ok (true, { st with
            video_sources := aupdate st.video_sources id
              (fun v => { v with video_stream := none, task := none }) })

/-- Python `_stop_detector(id)`: no live detector returns `False`; otherwise asserts
`detector_sub` exists, disposes it, closes the detector and clears both. -/
def _stop_detector (st : ManagerState) (id : Nat) : Except PyError (Bool × ManagerState) :=
  match alookup st.video_sources id with
  | none => .error .keyError
  | some vs =>
      match vs.detector with
      | none => .ok (false, st)
      | some _ =>
          match vs.detector_sub with
          | none => .error .assertionError
          | some h =>
              .ok (true, { st with
                dispose_log := st.dispose_log ++ [h],
                video_sources := aupdate st.video_sources id
                  (fun v => { v with detector := none, detector_sub := none }) })

/-- Python `_register_emitter(id)`: `VideoSourceAlertEmitter.create(vid_src)` raises
`ValueError` when the source has no detector; otherwise a fresh emitter is
created (subscribing itself to the detector's subject), stored on the
source, and added to the registrar (whose assertion sees a fresh id). -/
def _register_emitter (st : ManagerState) (id : Nat) : Except PyError ManagerState :=
  match alookup st.video_sources id with
  | none => .error .keyError
  | some vs =>
      match vs.detector with
      | none => .error .valueError
      | some _ =>
          let e := st.next_obj
          let st1 := { st with
            next_obj := st.next_obj + 1,
            video_sources := aupdate st.video_sources id
              (fun v => { v with emitter := some e }) }
          (st1.registrar.add_emitter e).map (fun r => { st1 with registrar := r })

/-- Python `_deregister_emitter(id)`: remove the stored emitter from the registrar
(if any) and clear the field. -/
def _deregister_emitter (st : ManagerState) (id : Nat) : Except PyError ManagerState :=
  match alookup st.video_sources id with
  | none => .error .keyError
  | some vs =>
      match vs.emitter with
      | none => .ok st
      | some e =>
          let r := (st.registrar.remove_emitter e).2
          .ok { st with
            registrar := r,
            video_sources := aupdate st.video_sources id
              (fun v => { v with emitter := none }) }

/-- The loop `for observer in vid_src.subscribers.keys():
await self.subscribe_to(id, observer)` in `enable_video_source`. -/
def subscribeLoop (st : ManagerState) (id : Nat) : List Nat → Except PyError ManagerState
  | [] => .ok st
  | o :: rest =>
      match subscribe_to st id o with
      | .error e => .error e
      | .ok st' => subscribeLoop st' id rest

/-- The loop `for observer in vid_src.subscribers.keys():
await self.unsubscribe_from(id, observer, _hard=False)` in
`disable_video_source`. -/
def unsubLoop (st : ManagerState) (id : Nat) : List Nat → Except PyError ManagerState
  | [] => .ok st
  | o :: rest =>
      match unsubscribe_from st id o false with
      | .error e => .error e
      | .ok (_, st') => unsubLoop st' id rest

/-- Python `enable_video_source(id)`: `self._video_sources[id]` (KeyError when
absent); persist `enabled = True`; set status Ok (status-change callbacks
are external); start the video stream and the detector; re-subscribe every
recorded observer; register a (new) alert emitter. -/
def enable_video_source (st : ManagerState) (id : Nat) : Except PyError ManagerState :=
  match alookup st.video_sources id with
  | none => .error .keyError
  | some vs =>
      let st1 := { st with
        video_sources := aupdate st.video_sources id
          (fun v => { v with db_info := { v.db_info with enabled := true }, status := true }),
        db_video_sources := saveVsRow st.db_video_sources { vs.db_info with enabled := true } }
      match _start_video_stream st1 id with
      | .error e => .error e
      | .ok (_, st2) =>
          match _start_detector st2 id with
          | .error e => .error e
          | .ok (_, st3) =>
              let obs := match alookup st3.video_sources id with
                | some v => v.subscribers.map (·.1)
                | none => []
              match subscribeLoop st3 id obs with
              | .error e => .error e
              | .ok st4 => _register_emitter st4 id

/-- Python `disable_video_source(id)`: persist `enabled = False`; soft-unsubscribe
every recorded observer; stop the detector, stop the video stream,
deregister the emitter. -/
def disable_video_source (st : ManagerState) (id : Nat) : Except PyError ManagerState :=
  match alookup st.video_sources id with
  | none => .error .keyError
  | some vs =>
      let st1 := { st with
        video_sources := aupdate st.video_sources id
          (fun v => { v with db_info := { v.db_info with enabled := false } }),
        db_video_sources := saveVsRow st.db_video_sources { vs.db_info with enabled := false } }
      match unsubLoop st1 id (vs.subscribers.map (·.1)) with
      | .error e => .error e
      | .ok st2 =>
          match _stop_detector st2 id with
          | .error e => .error e
          | .ok (_, st3) =>
              match _stop_video_stream st3 id with
              | .error e => .error e
              | .ok (_, st4) => _deregister_emitter st4 id

/-- Python `remove_video_source(id)`: an unknown id returns `False` with no effect;
otherwise disable, delete the persisted row, hard-dispose any remaining
observer subscription handles, drop the source from the map and mark all
historical alerts of the source's name as deleted. -/
def remove_video_source (st : ManagerState) (id : Nat) : Except PyError (Bool × ManagerState) :=
  match alookup st.video_sources id with
  | none => .ok (false, st)
  | some _ =>
      match disable_video_source st id with
      | .error e => .error e
      | .ok st1 =>
          let vsNow := alookup st1.video_sources id
          let name := match vsNow with
            | some v => v.db_info.name
            | none => ""
          let handles := match vsNow with
            | some v => v.subscribers.filterMap (·.2)
            | none => []
          let st2 := { st1 with
            db_video_sources := st1.db_video_sources.filter (fun r => r.id != id),
            dispose_log := st1.dispose_log ++ handles }
          let st3 := { st2 with
            video_sources := st2.video_sources.filter (fun p => p.1 != id) }
          .ok (true, { st3 with
            alert_db := AlertManager.mark_source_deleted st3.alert_db name })

end VideoSourceManager

/-! ### Frame lemmas for the video-source manager

Each lemma is conditioned on the operation having returned `.ok` and states
which parts of the state the operation leaves untouched. -/

/-- What the observer (un)subscription steps preserve: everything except the
sources' `subscribers` slots, the dispose log and the fresh-id counter. -/
structure ObsFrame (st st' : ManagerState) (id : Nat) : Prop where
  db : st'.db_video_sources = st.db_video_sources
  alerts : st'.alert_db = st.alert_db
  reg : st'.registrar = st.registrar
  dlog : ∃ l, st'.dispose_log = st.dispose_log ++ l
  next_le : st.next_obj ≤ st'.next_obj
  keys : st'.video_sources.map (·.1) = st.video_sources.map (·.1)
  src : ∀ vs, alookup st.video_sources id = some vs →
      ∃ vs', alookup st'.video_sources id = some vs' ∧
        vs'.db_info = vs.db_info ∧ vs'.status = vs.status ∧
        vs'.vidstream_component = vs.vidstream_component ∧
        vs'.detector_component = vs.detector_component ∧
        vs'.video_stream = vs.video_stream ∧ vs'.detector = vs.detector ∧
        vs'.detector_sub = vs.detector_sub ∧ vs'.emitter = vs.emitter ∧
        vs'.task = vs.task

theorem ObsFrame.frame_refl (st : ManagerState) (id : Nat) : ObsFrame st st id :=
  ⟨rfl, rfl, rfl, ⟨[], by simp⟩, le_rfl, rfl,
   fun vs h => ⟨vs, h, rfl, rfl, rfl, rfl, rfl, rfl, rfl, rfl, rfl⟩⟩

theorem ObsFrame.frame_trans {st1 st2 st3 : ManagerState} {id : Nat}
    (a : ObsFrame st1 st2 id) (b : ObsFrame st2 st3 id) : ObsFrame st1 st3 id := by
  obtain ⟨l1, hl1⟩ := a.dlog
  obtain ⟨l2, hl2⟩ := b.dlog
  refine ⟨b.db.trans a.db, b.alerts.trans a.alerts, b.reg.trans a.reg,
    ⟨l1 ++ l2, by rw [hl2, hl1, List.append_assoc]⟩,
    le_trans a.next_le b.next_le, b.keys.trans a.keys, ?_⟩
  intro vs h
  obtain ⟨vs2, h2, e1, e2, e3, e4, e5, e6, e7, e8, e9⟩ := a.src vs h
  obtain ⟨vs3, h3, f1, f2, f3, f4, f5, f6, f7, f8, f9⟩ := b.src vs2 h2
  exact ⟨vs3, h3, f1.trans e1, f2.trans e2, f3.trans e3, f4.trans e4,
    f5.trans e5, f6.trans e6, f7.trans e7, f8.trans e8, f9.trans e9⟩

theorem src_of_subscribers_aupdate {m : List (Nat × VideoSource)} {id : Nat}
    (f : VideoSource → List (Nat × Option Nat)) :
    ∀ (vs : VideoSource), alookup m id = some vs →
      ∃ vs', alookup (aupdate m id (fun v => { v with subscribers := f v })) id = some vs' ∧
        vs'.db_info = vs.db_info ∧ vs'.status = vs.status ∧
        vs'.vidstream_component = vs.vidstream_component ∧
        vs'.detector_component = vs.detector_component ∧
        vs'.video_stream = vs.video_stream ∧ vs'.detector = vs.detector ∧
        vs'.detector_sub = vs.detector_sub ∧ vs'.emitter = vs.emitter ∧
        vs'.task = vs.task :=
  fun _ h =>
    ⟨_, alookup_aupdate_self _ h, rfl, rfl, rfl, rfl, rfl, rfl, rfl, rfl, rfl⟩

theorem subscribe_to_ok {st st' : ManagerState} {id o : Nat}
    (h : VideoSourceManager.subscribe_to st id o = .ok st') : ObsFrame st st' id := by
  unfold VideoSourceManager.subscribe_to at h
  split at h
  · exact Except.noConfusion h
  · dsimp only [] at h
    split at h
    · -- detector is `None`: only the first `subscribers` write happens
      obtain rfl := (Except.ok.inj h).symm
      exact ⟨rfl, rfl, rfl, ⟨[], by simp⟩, le_rfl, aupdate_keys _ _ _,
        src_of_subscribers_aupdate _⟩
    · -- detector is live: a fresh handle is stored as well
      obtain rfl := (Except.ok.inj h).symm
      refine ⟨rfl, rfl, rfl, ⟨[], by simp⟩, Nat.le_add_right _ 1, ?_, ?_⟩
      · show (aupdate (aupdate st.video_sources id _) id _).map (·.1) = _
        rw [aupdate_keys, aupdate_keys]
      · intro vs0 h0
        obtain ⟨vs1, h1, e1, e2, e3, e4, e5, e6, e7, e8, e9⟩ :=
          src_of_subscribers_aupdate (fun v => ainsert v.subscribers o none) vs0 h0
        obtain ⟨vs2, h2, f1, f2, f3, f4, f5, f6, f7, f8, f9⟩ :=
          src_of_subscribers_aupdate
            (fun v => ainsert v.subscribers o (some st.next_obj)) vs1 h1
        exact ⟨vs2, h2, f1.trans e1, f2.trans e2, f3.trans e3, f4.trans e4,
          f5.trans e5, f6.trans e6, f7.trans e7, f8.trans e8, f9.trans e9⟩

theorem unsubscribe_from_ok {st st' : ManagerState} {id o : Nat} {b : Bool}
    (h : VideoSourceManager.unsubscribe_from st id o false = .ok (b, st')) :
    ObsFrame st st' id := by
  unfold VideoSourceManager.unsubscribe_from at h
  split at h
  · obtain ⟨rfl, rfl⟩ := Prod.mk.inj (Except.ok.inj h)
    exact ObsFrame.frame_refl st id
  · split at h
    · exact Except.noConfusion h
    · dsimp only [] at h
      rw [if_neg Bool.false_ne_true] at h
      split at h
      · -- the recorded handle was `None`: nothing is disposed or written
        obtain ⟨rfl, rfl⟩ := Prod.mk.inj (Except.ok.inj h)
        exact ObsFrame.frame_refl st id
      · -- a live handle is disposed and the slot cleared
        obtain ⟨rfl, rfl⟩ := Prod.mk.inj (Except.ok.inj h)
        exact ⟨rfl, rfl, rfl, ⟨_, rfl⟩, le_rfl, aupdate_keys _ _ _,
          src_of_subscribers_aupdate _⟩

theorem subscribeLoop_ok {id : Nat} :
    ∀ {obs : List Nat} {st st' : ManagerState},
      VideoSourceManager.subscribeLoop st id obs = .ok st' → ObsFrame st st' id := by
  intro obs
  induction obs with
  | nil =>
      intro st st' h
      have h' : (Except.ok st : Except PyError ManagerState) = .ok st' := h
      obtain rfl := Except.ok.inj h'
      exact ObsFrame.frame_refl st id
  | cons o rest ih =>
      intro st st' h
      unfold VideoSourceManager.subscribeLoop at h
      split at h
      · exact Except.noConfusion h
      · rename_i st1 hstep
        exact (subscribe_to_ok hstep).frame_trans (ih h)

theorem unsubLoop_ok {id : Nat} :
    ∀ {obs : List Nat} {st st' : ManagerState},
      VideoSourceManager.unsubLoop st id obs = .ok st' → ObsFrame st st' id := by
  intro obs
  induction obs with
  | nil =>
      intro st st' h
      have h' : (Except.ok st : Except PyError ManagerState) = .ok st' := h
      obtain rfl := Except.ok.inj h'
      exact ObsFrame.frame_refl st id
  | cons o rest ih =>
      intro st st' h
      unfold VideoSourceManager.unsubLoop at h
      split at h
      · exact Except.noConfusion h
      · rename_i b st1 hstep
        exact (unsubscribe_from_ok hstep).frame_trans (ih h)

/-- What the tail of `disable_video_source` and `remove_video_source` need:
the alert table is untouched and the source under `id` keeps its name. -/
def NamePreserved (st st' : ManagerState) (id : Nat) : Prop :=
  st'.alert_db = st.alert_db ∧
  ∀ vs, alookup st.video_sources id = some vs →
    ∃ vs', alookup st'.video_sources id = some vs' ∧ vs'.db_info.name = vs.db_info.name

theorem NamePreserved.np_refl (st : ManagerState) (id : Nat) : NamePreserved st st id :=
  ⟨rfl, fun vs h => ⟨vs, h, rfl⟩⟩

theorem NamePreserved.np_trans {st1 st2 st3 : ManagerState} {id : Nat}
    (a : NamePreserved st1 st2 id) (b : NamePreserved st2 st3 id) :
    NamePreserved st1 st3 id :=
  ⟨b.1.trans a.1, fun vs h => by
    obtain ⟨vs2, h2, e⟩ := a.2 vs h
    obtain ⟨vs3, h3, f⟩ := b.2 vs2 h2
    exact ⟨vs3, h3, f.trans e⟩⟩

theorem ObsFrame.name_preserved {st st' : ManagerState} {id : Nat}
    (a : ObsFrame st st' id) : NamePreserved st st' id :=
  ⟨a.alerts, fun vs h => by
    obtain ⟨vs', h', e1, _, _, _, _, _, _, _, _⟩ := a.src vs h
    exact ⟨vs', h', by rw [e1]⟩⟩

theorem stop_detector_ok {st st' : ManagerState} {id : Nat} {b : Bool}
    (h : VideoSourceManager._stop_detector st id = .ok (b, st')) :
    NamePreserved st st' id := by
  unfold VideoSourceManager._stop_detector at h
  split at h
  · exact Except.noConfusion h
  · split at h
    · obtain ⟨rfl, rfl⟩ := Prod.mk.inj (Except.ok.inj h)
      exact NamePreserved.np_refl st id
    · split at h
      · exact Except.noConfusion h
      · obtain ⟨rfl, rfl⟩ := Prod.mk.inj (Except.ok.inj h)
        exact ⟨rfl, fun vs0 h0 => ⟨_, alookup_aupdate_self _ h0, rfl⟩⟩

theorem stop_video_stream_ok {st st' : ManagerState} {id : Nat} {b : Bool}
    (h : VideoSourceManager._stop_video_stream st id = .ok (b, st')) :
    NamePreserved st st' id := by
  unfold VideoSourceManager._stop_video_stream at h
  split at h
  · exact Except.noConfusion h
  · split at h
    · obtain ⟨rfl, rfl⟩ := Prod.mk.inj (Except.ok.inj h)
      exact NamePreserved.np_refl st id
    · obtain ⟨rfl, rfl⟩ := Prod.mk.inj (Except.ok.inj h)
      exact ⟨rfl, fun vs0 h0 => ⟨_, alookup_aupdate_self _ h0, rfl⟩⟩

theorem deregister_emitter_ok {st st' : ManagerState} {id : Nat}
    (h : VideoSourceManager._deregister_emitter st id = .ok st') :
    NamePreserved st st' id := by
  unfold VideoSourceManager._deregister_emitter at h
  split at h
  · exact Except.noConfusion h
  · split at h
    · obtain rfl := Except.ok.inj h
      exact NamePreserved.np_refl st id
    · obtain rfl := (Except.ok.inj h).symm
      exact ⟨rfl, fun vs0 h0 => ⟨_, alookup_aupdate_self _ h0, rfl⟩⟩

theorem disable_video_source_ok {st st' : ManagerState} {id : Nat}
    (h : VideoSourceManager.disable_video_source st id = .ok st') :
    NamePreserved st st' id := by
  unfold VideoSourceManager.disable_video_source at h
  split at h
  · exact Except.noConfusion h
  · dsimp only [] at h
    split at h
    · exact Except.noConfusion h
    · rename_i st2 hloop
      split at h
      · exact Except.noConfusion h
      · rename_i b3 st3 hsd
        split at h
        · exact Except.noConfusion h
        · rename_i b4 st4 hsv
          refine NamePreserved.np_trans ?_
            ((unsubLoop_ok hloop).name_preserved.np_trans
              ((stop_detector_ok hsd).np_trans
                ((stop_video_stream_ok hsv).np_trans
                  (deregister_emitter_ok h))))
          exact ⟨rfl, fun vs0 h0 => ⟨_, alookup_aupdate_self _ h0, rfl⟩⟩

/-- Claim C6: whenever `remove_video_source(id)` succeeds on a present source
(here named `vs`), the resulting alert table is the old one with every row
of that source's name marked `source_deleted = True`; consequently
`get_alerts(source=name)` is empty, while `get_alerts()` with no filter
still holds every historical row — those of the removed source with
`source_deleted = True`, all others untouched — and no row is lost. -/
theorem C6_remove_video_source_marks_alerts :
    ∀ (st : ManagerState) (id : Nat) (vs : VideoSource) (st' : ManagerState),
      alookup st.video_sources id = some vs →
      VideoSourceManager.remove_video_source st id = .ok (true, st') →
      st'.alert_db = AlertManager.mark_source_deleted st.alert_db vs.db_info.name ∧
      AlertManager.get_alerts st'.alert_db (some vs.db_info.name) = [] ∧
      (∀ r ∈ st.alert_db,
        (r.source = vs.db_info.name →
          { r with source_deleted := true } ∈ AlertManager.get_alerts st'.alert_db none) ∧
        (r.source ≠ vs.db_info.name → r ∈ AlertManager.get_alerts st'.alert_db none)) ∧
      st'.alert_db.length = st.alert_db.length := by
  intro st id vs st' hvs h
  unfold VideoSourceManager.remove_video_source at h
  split at h
  · obtain ⟨hb, _⟩ := Prod.mk.inj (Except.ok.inj h)
    exact Bool.noConfusion hb
  · rename_i vs1 hvs1
    obtain rfl : vs = vs1 := by
      rw [hvs] at hvs1
      exact Option.some.inj hvs1
    dsimp only [] at h
    split at h
    · exact Except.noConfusion h
    · rename_i st1 hdis
      obtain ⟨halert1, hname⟩ := disable_video_source_ok hdis
      obtain ⟨vs1', hvs1', hname1⟩ := hname vs hvs
      rw [hvs1'] at h
      dsimp only [] at h
      have hst' := (Prod.mk.inj (Except.ok.inj h)).2
      have hdb : st'.alert_db
          = AlertManager.mark_source_deleted st.alert_db vs.db_info.name := by
        rw [← hst', ← halert1, ← hname1]
      refine ⟨hdb, ?_, ?_, ?_⟩
      · rw [hdb]
        exact get_alerts_mark_source_deleted_nil _ _
      · intro r hr
        have hmem := @mark_source_deleted_mem _ vs.db_info.name _ hr
        constructor
        · intro hs
          show _ ∈ st'.alert_db
          rw [hdb]
          exact hmem.1 hs
        · intro hs
          show _ ∈ st'.alert_db
          rw [hdb]
          exact hmem.2 hs
      · rw [hdb]
        exact List.length_map _ _

/-- A disabled camera `"cam"` (id 1) with two historical alerts, one of source
`"cam"` and one of source `"other"`. -/
def c6Vs : VideoSource :=
  { db_info := { id := 1, name := "cam", enabled := false, detect_interval := 1 },
    status := true, subscribers := [], vidstream_component := none,
    detector_component := none, video_stream := none, detector := none,
    detector_sub := none, emitter := none, task := none }

def c6State : ManagerState :=
  { video_sources := [(1, c6Vs)],
    db_video_sources := [c6Vs.db_info],
    alert_db :=
      [{ id := 1, header := "Camera Alert", description := "Detected: person",
         source := "cam", source_type := "Video Source", source_deleted := false,
         timestamp := 3 },
       { id := 2, header := "Camera Alert", description := "Detected: dog",
         source := "other", source_type := "Video Source", source_deleted := false,
         timestamp := 4 }],
    registrar := SubscriptionRegistrar.empty,
    dispose_log := [], next_obj := 0 }

def c6Result : ManagerState :=
  match VideoSourceManager.remove_video_source c6State 1 with
  | .ok (_, s) => s
  | .error _ => c6State

theorem C6_remove_video_source_marks_alerts_witness :
    alookup c6State.video_sources 1 = some c6Vs ∧
    VideoSourceManager.remove_video_source c6State 1 = .ok (true, c6Result) ∧
    (c6Result.alert_db
        = AlertManager.mark_source_deleted c6State.alert_db c6Vs.db_info.name ∧
      AlertManager.get_alerts c6Result.alert_db (some c6Vs.db_info.name) = [] ∧
      (∀ r ∈ c6State.alert_db,
        (r.source = c6Vs.db_info.name →
          { r with source_deleted := true }
            ∈ AlertManager.get_alerts c6Result.alert_db none) ∧
        (r.source ≠ c6Vs.db_info.name →
          r ∈ AlertManager.get_alerts c6Result.alert_db none)) ∧
      c6Result.alert_db.length = c6State.alert_db.length) :=
  ⟨rfl, rfl, C6_remove_video_source_marks_alerts c6State 1 c6Vs c6Result rfl rfl⟩

/-! ### Claim C3: enable/disable idempotence -/

theorem map_id_of_eq {α : Type} {l : List α} {f : α → α}
    (h : ∀ a ∈ l, f a = a) : l.map f = l := by
  induction l with
  | nil => rfl
  | cons a rest ih =>
      simp only [List.map_cons]
      rw [h a (List.mem_cons_self _ _), ih (fun b hb => h b (List.mem_cons_of_mem _ hb))]

theorem saveVsRow_id {rows : List VsRow} {row : VsRow}
    (hmem : row ∈ rows) (huniq : ∀ r ∈ rows, r.id = row.id → r = row) :
    saveVsRow rows row = rows := by
  unfold saveVsRow
  rw [if_pos (List.any_eq_true.mpr ⟨row, hmem, by simp⟩)]
  apply map_id_of_eq
  intro r hr
  by_cases hid : r.id = row.id
  · rw [if_pos (by simpa using hid)]
    exact (huniq r hr hid).symm
  · rw [if_neg (by simpa using hid)]

theorem register_emitter_ok {st st' : ManagerState} {id : Nat}
    (h : VideoSourceManager._register_emitter st id = .ok st') :
    st'.registrar.emitters.length = st.registrar.emitters.length + 1 ∧
    ∀ vs, alookup st.video_sources id = some vs →
      ∃ vs', alookup st'.video_sources id = some vs' ∧
        vs'.task = vs.task ∧ vs'.video_stream = vs.video_stream ∧
        vs'.detector = vs.detector ∧ vs'.emitter = some st.next_obj := by
  unfold VideoSourceManager._register_emitter at h
  split at h
  · exact Except.noConfusion h
  · split at h
    · exact Except.noConfusion h
    · dsimp only [] at h
      unfold SubscriptionRegistrar.add_emitter at h
      split at h
      · simp only [Except.map] at h
        exact Except.noConfusion h
      · simp only [Except.map] at h
        obtain rfl := (Except.ok.inj h).symm
        constructor
        · show (st.registrar.emitters ++ _).length = _
          simp
        · intro vs0 h0
          exact ⟨_, alookup_aupdate_self _ h0, rfl, rfl, rfl, rfl⟩

theorem enable_on_live_spec {st st' : ManagerState} {id : Nat} {vs : VideoSource}
    (hvs : alookup st.video_sources id = some vs)
    (hstr : vs.video_stream.isSome = true)
    (hdet : vs.detector.isSome = true)
    (h : VideoSourceManager.enable_video_source st id = .ok st') :
    ∃ vs', alookup st'.video_sources id = some vs' ∧
      vs'.task = vs.task ∧ vs'.video_stream = vs.video_stream ∧
      vs'.detector = vs.detector ∧
      st'.registrar.emitters.length = st.registrar.emitters.length + 1 ∧
      ∃ e, vs'.emitter = some e ∧ st.next_obj ≤ e := by
  unfold VideoSourceManager.enable_video_source at h
  split at h
  · exact Except.noConfusion h
  · rename_i vs1 hvs1
    obtain rfl : vs = vs1 := by
      rw [hvs] at hvs1
      exact Option.some.inj hvs1
    dsimp only [] at h
    revert h
    generalize hst1 : ({ st with
      video_sources := aupdate st.video_sources id
        (fun v => { v with db_info := { v.db_info with enabled := true }, status := true }),
      db_video_sources := saveVsRow st.db_video_sources
        { vs.db_info with enabled := true } } : ManagerState) = st1
    intro h
    have hreg1 : st1.registrar = st.registrar := by rw [← hst1]
    have hnext1 : st1.next_obj = st.next_obj := by rw [← hst1]
    have hvs1 : alookup st1.video_sources id
        = some { vs with
            db_info := { vs.db_info with enabled := true },
            status := true } := by
      rw [← hst1]
      exact alookup_aupdate_self _ hvs
    have hnone : vs.video_stream.isNone = false := by
      cases hv : vs.video_stream with
      | none => rw [hv] at hstr; exact absurd hstr (by simp)
      | some _ => rfl
    have hsv : VideoSourceManager._start_video_stream st1 id = .ok (true, st1) := by
      unfold VideoSourceManager._start_video_stream
      rw [hvs1]
      dsimp only []
      rw [if_pos hstr]
    have hsd : VideoSourceManager._start_detector st1 id = .ok (true, st1) := by
      unfold VideoSourceManager._start_detector
      rw [hvs1]
      dsimp only []
      rw [if_neg (by simp [hnone]), if_pos hdet]
    rw [hsv] at h
    dsimp only [] at h
    rw [hsd] at h
    dsimp only [] at h
    rw [hvs1] at h
    dsimp only [] at h
    split at h
    · exact Except.noConfusion h
    · rename_i st4 hloop
      have f4 := subscribeLoop_ok hloop
      obtain ⟨hlen, hsrc⟩ := register_emitter_ok h
      obtain ⟨vs4, hvs4, _, _, _, _, e_stream, e_det, _, _, e_task⟩ := f4.src _ hvs1
      obtain ⟨vs', hvs', f_task, f_stream, f_det, f_emit⟩ := hsrc vs4 hvs4
      refine ⟨vs', hvs', ?_, ?_, ?_, ?_, st4.next_obj, f_emit, ?_⟩
      · rw [f_task, e_task]
      · rw [f_stream, e_stream]
      · rw [f_det, e_det]
      · rw [hlen, f4.reg, hreg1]
      · calc st.next_obj = st1.next_obj := hnext1.symm
          _ ≤ st4.next_obj := f4.next_le

theorem unsubLoop_noop {st : ManagerState} {id : Nat} {vs : VideoSource}
    (hvs : alookup st.video_sources id = some vs)
    (hsubs : ∀ p ∈ vs.subscribers, p.2 = none) :
    ∀ obs, (∀ o ∈ obs, o ∈ vs.subscribers.map (·.1)) →
      VideoSourceManager.unsubLoop st id obs = .ok st := by
  intro obs
  induction obs with
  | nil => intro _; rfl
  | cons o rest ih =>
      intro h
      have ho := h o (List.mem_cons_self _ _)
      have hsome := alookup_isSome_of_mem_keys ho
      obtain ⟨v, hv⟩ := Option.isSome_iff_exists.mp hsome
      have hvnone : v = none := hsubs _ (alookup_mem hv)
      subst hvnone
      have hstep : VideoSourceManager.unsubscribe_from st id o false = .ok (true, st) := by
        unfold VideoSourceManager.unsubscribe_from
        rw [hvs]
        dsimp only []
        rw [hv]
        dsimp only []
        rw [if_neg Bool.false_ne_true]
      unfold VideoSourceManager.unsubLoop
      rw [hstep]
      dsimp only []
      exact ih (fun o' ho' => h o' (List.mem_cons_of_mem _ ho'))

theorem disable_noop_spec {st : ManagerState} {id : Nat} {vs : VideoSource}
    (hnd : (st.video_sources.map (·.1)).Nodup)
    (hvs : alookup st.video_sources id = some vs)
    (henb : vs.db_info.enabled = false)
    (hstream : vs.video_stream = none)
    (hdetn : vs.detector = none)
    (hemit : vs.emitter = none)
    (hsubs : ∀ p ∈ vs.subscribers, p.2 = none)
    (hrow : vs.db_info ∈ st.db_video_sources)
    (huniq : ∀ r ∈ st.db_video_sources, r.id = vs.db_info.id → r = vs.db_info) :
    VideoSourceManager.disable_video_source st id = .ok st := by
  have hdbrow : ({ vs.db_info with enabled := false } : VsRow) = vs.db_info := by
    rw [← henb]
  have hupd : aupdate st.video_sources id
      (fun v => { v with db_info := { v.db_info with enabled := false } })
      = st.video_sources := by
    apply aupdate_id
    intro p hp hpk
    have hpv : p.2 = vs := alookup_eq_of_keys_nodup hnd hvs p hp hpk
    rw [hpv]
    show ({ vs with db_info := { vs.db_info with enabled := false } } : VideoSource) = vs
    rw [hdbrow]
  have hsave : saveVsRow st.db_video_sources { vs.db_info with enabled := false }
      = st.db_video_sources := by
    rw [hdbrow]
    exact saveVsRow_id hrow huniq
  unfold VideoSourceManager.disable_video_source
  rw [hvs]
  dsimp only []
  rw [hupd, hsave]
  rw [show ({ st with
        video_sources := st.video_sources,
        db_video_sources := st.db_video_sources } : ManagerState) = st from rfl]
  rw [unsubLoop_noop hvs hsubs _ (fun o ho => ho)]
  dsimp only []
  have hsd : VideoSourceManager._stop_detector st id = .ok (false, st) := by
    unfold VideoSourceManager._stop_detector
    rw [hvs]
    dsimp only []
    rw [hdetn]
  have hsv : VideoSourceManager._stop_video_stream st id = .ok (false, st) := by
    unfold VideoSourceManager._stop_video_stream
    rw [hvs]
    dsimp only []
    rw [hstream]
  rw [hsd]
  dsimp only []
  rw [hsv]
  dsimp only []
  unfold VideoSourceManager._deregister_emitter
  rw [hvs]
  dsimp only []
  rw [hemit]

/-- Claim C3 (amended): a second `enable_video_source` on an already-enabled,
live source spawns no new driver task and leaves the task, the reactive
stream and the detector untouched, but it is not a no-op: it registers an
additional, fresh alert emitter with the registrar (replacing the source's
emitter handle) — whereas a second `disable_video_source` on an
already-disabled source leaves the state entirely unchanged. -/
theorem C3_second_enable_registers_new_emitter_second_disable_noop :
    (∀ (st st' : ManagerState) (id : Nat) (vs : VideoSource),
      alookup st.video_sources id = some vs →
      vs.video_stream.isSome = true → vs.detector.isSome = true →
      VideoSourceManager.enable_video_source st id = .ok st' →
      ∃ vs', alookup st'.video_sources id = some vs' ∧
        vs'.task = vs.task ∧ vs'.video_stream = vs.video_stream ∧
        vs'.detector = vs.detector ∧
        st'.registrar.emitters.length = st.registrar.emitters.length + 1 ∧
        ∃ e, vs'.emitter = some e ∧ st.next_obj ≤ e) ∧
    (∀ (st : ManagerState) (id : Nat) (vs : VideoSource),
      (st.video_sources.map (·.1)).Nodup →
      alookup st.video_sources id = some vs →
      vs.db_info.enabled = false → vs.video_stream = none →
      vs.detector = none → vs.emitter = none →
      (∀ p ∈ vs.subscribers, p.2 = none) →
      vs.db_info ∈ st.db_video_sources →
      (∀ r ∈ st.db_video_sources, r.id = vs.db_info.id → r = vs.db_info) →
      VideoSourceManager.disable_video_source st id = .ok st) :=
  ⟨fun _ _ _ _ hvs hstr hdet h => enable_on_live_spec hvs hstr hdet h,
   fun _ _ _ hnd hvs henb hstream hdetn hemit hsubs hrow huniq =>
     disable_noop_spec hnd hvs henb hstream hdetn hemit hsubs hrow huniq⟩

/-- An enabled, live camera (id 7): stream handle 0, detector over raw
detector 1 with subscription handle 2, emitter 3 (registered in the
registrar with driver task 5), video driver task 4. -/
def c3Vs : VideoSource :=
  { db_info := { id := 7, name := "cam7", enabled := true, detect_interval := 1 },
    status := true,
    subscribers := [],
    vidstream_component := some { display_name := "VS", kind := .asyncVideoStream },
    detector_component := some { display_name := "Det", kind := .asyncDetector },
    video_stream := some 0,
    detector := some (ReactiveDetector.mkNew 1 1),
    detector_sub := some 2,
    emitter := some 3,
    task := some 4 }

def c3State : ManagerState :=
  { video_sources := [(7, c3Vs)],
    db_video_sources := [c3Vs.db_info],
    alert_db := [],
    registrar := { emitters := [(3, some 5)], subscribers := [],
                   subscriptions := [], dispose_log := [], next_id := 6 },
    dispose_log := [],
    next_obj := 10 }

/-- Claim C3 (counterexample): enabling the already-enabled live source `7` a
second time completes normally, spawns no new driver task (the task handle
is still `4`) — but it does not leave the observable state unchanged: the
registrar's emitter set grows from one to two registered emitters, refuting
the claimed no-op. -/
theorem C3_second_enable_adds_emitter_counterexample :
    c3State.registrar.emitters.length = 1 ∧
    (VideoSourceManager.enable_video_source c3State 7).map
        (fun s => s.registrar.emitters.length) = .ok 2 ∧
    (VideoSourceManager.enable_video_source c3State 7).map
        (fun s => (alookup s.video_sources 7).map (fun v => v.task))
      = .ok (some (some 4)) :=
  ⟨rfl, rfl, rfl⟩

def c3Enabled : ManagerState :=
  match VideoSourceManager.enable_video_source c3State 7 with
  | .ok s => s
  | .error _ => c3State

/-- A disabled camera (id 7) with one soft-detached observer (handle `None`). -/
def c3VsDisabled : VideoSource :=
  { db_info := { id := 7, name := "cam7", enabled := false, detect_interval := 1 },
    status := true,
    subscribers := [(20, none)],
    vidstream_component := some { display_name := "VS", kind := .asyncVideoStream },
    detector_component := some { display_name := "Det", kind := .asyncDetector },
    video_stream := none, detector := none, detector_sub := none,
    emitter := none, task := none }

def c3StateDisabled : ManagerState :=
  { video_sources := [(7, c3VsDisabled)],
    db_video_sources := [c3VsDisabled.db_info],
    alert_db := [],
    registrar := SubscriptionRegistrar.empty,
    dispose_log := [],
    next_obj := 30 }

theorem C3_second_enable_registers_new_emitter_second_disable_noop_witness :
    (alookup c3State.video_sources 7 = some c3Vs ∧
      c3Vs.video_stream.isSome = true ∧ c3Vs.detector.isSome = true ∧
      VideoSourceManager.enable_video_source c3State 7 = .ok c3Enabled ∧
      (∃ vs', alookup c3Enabled.video_sources 7 = some vs' ∧
        vs'.task = c3Vs.task ∧ vs'.video_stream = c3Vs.video_stream ∧
        vs'.detector = c3Vs.detector ∧
        c3Enabled.registrar.emitters.length
          = c3State.registrar.emitters.length + 1 ∧
        ∃ e, vs'.emitter = some e ∧ c3State.next_obj ≤ e)) ∧
    VideoSourceManager.disable_video_source c3StateDisabled 7 = .ok c3StateDisabled :=
  ⟨⟨rfl, rfl, rfl, rfl,
    C3_second_enable_registers_new_emitter_second_disable_noop.1
      c3State c3Enabled 7 c3Vs rfl rfl rfl rfl⟩,
   C3_second_enable_registers_new_emitter_second_disable_noop.2
     c3StateDisabled 7 c3VsDisabled (by decide) rfl rfl rfl rfl rfl
     (by decide)
     (by simp [c3StateDisabled])
     (by intro r hr _; simpa [c3StateDisabled] using hr)⟩

/-! ### Claim C8: detector wrapping and the detection interval -/

/-- An enabled camera (id 7, `detect_interval = 5`) whose stream is live but
whose detector has not been created yet; the detector component is
synchronous. -/
def c8VsSync : VideoSource :=
  { db_info := { id := 7, name := "cam7", enabled := true, detect_interval := 5 },
    status := true, subscribers := [],
    vidstream_component := some { display_name := "VS", kind := .asyncVideoStream },
    detector_component := some { display_name := "Det", kind := .syncDetector },
    video_stream := some 0, detector := none, detector_sub := none,
    emitter := none, task := some 1 }

def c8StateSync : ManagerState :=
  { video_sources := [(7, c8VsSync)], db_video_sources := [c8VsSync.db_info],
    alert_db := [], registrar := SubscriptionRegistrar.empty,
    dispose_log := [], next_obj := 10 }

/-- The same camera with an asynchronous detector component. -/
def c8VsAsync : VideoSource :=
  { c8VsSync with
    detector_component := some { display_name := "Det", kind := .asyncDetector } }

def c8StateAsync : ManagerState :=
  { c8StateSync with video_sources := [(7, c8VsAsync)] }

/-- Claim C8 (the code diverges): starting the detector of a source whose
detector component is synchronous raises `TypeError`, because
`_start_detector` calls
`ReactiveDetector.from_sync_detector(raw_detector, interval=...)` while the
classmethod accepts no `interval` keyword (and its body would default the
interval to `1`, not `detect_interval = 5`).  The asynchronous branch does
create a `ReactiveDetector` whose interval equals the persisted
`detect_interval`. -/
theorem C8_sync_detector_start_raises_type_error :
    VideoSourceManager._start_detector c8StateSync 7 = .error .typeError ∧
    (VideoSourceManager._start_detector c8StateAsync 7).map
        (fun p => ((alookup p.2.video_sources 7).bind (fun v => v.detector)).map
          (fun d => d.interval)) = .ok (some 5) ∧
    (ReactiveDetector.from_sync_detector 0).interval = 1 ∧
    c8VsSync.db_info.detect_interval ≠ (ReactiveDetector.from_sync_detector 0).interval :=
  ⟨rfl, rfl, rfl, by
    norm_num [c8VsSync, ReactiveDetector.from_sync_detector, ReactiveDetector.mkNew]⟩

/-! ### Plugin registry (`sentinel_server/plugins.py` and
`sentinel_core/plugins.py`) -/

structure Plugin where
  components : List Component
deriving DecidableEq, Repr

/-- Python `PluginDescriptor` (the `entry_point` and `metadata` fields point at
external `importlib` objects and are omitted). -/
structure PluginDescriptor where
  name : String
  plugin : Option Plugin
deriving DecidableEq, Repr

/-- An installed entry point together with the behaviour of its `load()`:
`.ok p` returns the plugin `p`, `.error e` raises. -/
structure EntryPointModel where
  name : String
  load_result : Except PyError Plugin
deriving Repr

namespace PluginManager

/-- Python `PluginManager._load_plugin(entry_point)`: `plugin = entry_point.load()` —
there is no `try`/`except` around the call. -/
def _load_plugin (ep : EntryPointModel) : Except PyError Plugin :=
  ep.load_result

/-- The list comprehension in `init_plugins`, building one `PluginDescriptor`
per discovered entry point, in order: whitelisted entry points are loaded
via `_load_plugin`, the others get `plugin=None`.  An exception raised by a
load propagates out of the comprehension — and out of `init_plugins`,
leaving `_plugin_descriptors` unset. -/
def init_plugins (whitelist : List String) :
    List EntryPointModel → Except PyError (List PluginDescriptor)
  | [] => .ok []
  | ep :: rest =>
      match (if whitelist.contains ep.name then
               (_load_plugin ep).map
                 (fun p => ({ name := ep.name, plugin := some p } : PluginDescriptor))
             else .ok { name := ep.name, plugin := none }) with
      | .error e => .error e
      | .ok d => (init_plugins whitelist rest).map (fun ds => d :: ds)

/-- Python `find_plugin_desc(lambda pd: pd.name == plugin_name)`. -/
def find_plugin_desc (plugins : List PluginDescriptor) (name : String) :
    Option PluginDescriptor :=
  plugins.find? (fun pd => pd.name == name)

end PluginManager

/-- Python `Plugin.find_component(lambda comp: comp.display_name == component_name)`
of `sentinel_core.plugins.Plugin`. -/
def Plugin.find_component (p : Plugin) (name : String) : Option Component :=
  p.components.find? (fun c => c.display_name == name)

/-! ### SubscriberManager (`sentinel_server/alert/__init__.py`) -/

structure SubRow where
  id : Nat
  name : String
  enabled : Bool
  plugin_name : String
  component_name : String
deriving DecidableEq, Repr

/-- Python `ManagedSubscriber` (`plugin_desc` is carried only for the UI and is
omitted; `raw` is the opaque instantiated subscriber). -/
structure ManagedSubscriber where
  db_info : SubRow
  status : Bool  -- `SubscriberStatus`: `true` = Ok, `false` = Error
  component : Option Component := none
  raw : Option Nat := none
deriving DecidableEq, Repr

structure SubMgrState where
  managed_subscribers : List (Nat × ManagedSubscriber)
  db_subscribers : List SubRow
  plugins : List PluginDescriptor
  registrar : SubscriptionRegistrar
  next_obj : Nat
deriving DecidableEq, Repr

/-- Python `db_info.save()` on the subscriber table. -/
def saveSubRow (rows : List SubRow) (row : SubRow) : List SubRow :=
  if rows.any (fun r => r.id == row.id) then
    rows.map (fun r => if r.id == row.id then row else r)
  else rows ++ [row]

namespace SubscriberManager

/-- Python `_register_subscriber(id)`: an already-created raw subscriber or a missing
component returns `False`; otherwise the raw subscriber is instantiated
from the component (fresh opaque id, `args_transform` applied externally)
and added to the registrar as async or sync (any other kind would fail the
assertion). -/
def _register_subscriber (st : SubMgrState) (id : Nat) :
    Except PyError (Bool × SubMgrState) :=
  match alookup st.managed_subscribers id with
  | none => .error .keyError
  | some ms =>
      if ms.raw.isSome then .ok (false, st)
      else
        match ms.component with
        | none => .ok (false, st)
        | some comp =>
            let rawId := st.next_obj
            let st1 := { st with next_obj := st.next_obj + 1 }
            let add :=
              if comp.kind = ComponentKind.asyncSubscriber then
                st1.registrar.add_async_subscriber rawId
              else if comp.kind = ComponentKind.syncSubscriber then
                st1.registrar.add_sync_subscriber rawId
              else .error .assertionError
            add.map (fun r => (true, { st1 with
              registrar := r,
              managed_subscribers := aupdate st1.managed_subscribers id
                (fun m => { m with raw := some rawId }) }))

/-- Python `_deregister_subscriber(id)`. -/
def _deregister_subscriber (st : SubMgrState) (id : Nat) :
    Except PyError (Bool × SubMgrState) :=
  match alookup st.managed_subscribers id with
  | none => .error .keyError
  | some ms =>
      match ms.raw with
      | none => .ok (false, st)
      | some raw =>
          let r := (st.registrar.remove_subscriber raw).2
          .ok (true, { st with
            registrar := r,
            managed_subscribers := aupdate st.managed_subscribers id
              (fun m => { m with raw := none }) })

/-- Python `disable_subscriber(id)`: persist `enabled = False`, then deregister. -/
def disable_subscriber (st : SubMgrState) (id : Nat) : Except PyError SubMgrState :=
  match alookup st.managed_subscribers id with
  | none => .error .keyError
  | some ms =>
      let st1 := { st with
        managed_subscribers := aupdate st.managed_subscribers id
          (fun m => { m with db_info := { m.db_info with enabled := false } }),
        db_subscribers := saveSubRow st.db_subscribers
          { ms.db_info with enabled := false } }
      (_deregister_subscriber st1 id).map (·.2)

/-- Python `remove_subscriber(id)`: an unknown id returns `False` with no effect;
otherwise disable, delete the persisted row, drop the managed entry. -/
def remove_subscriber (st : SubMgrState) (id : Nat) :
    Except PyError (Bool × SubMgrState) :=
  match alookup st.managed_subscribers id with
  | none => .ok (false, st)
  | some _ =>
      match disable_subscriber st id with
      | .error e => .error e
      | .ok st1 =>
          let st2 := { st1 with
            db_subscribers := st1.db_subscribers.filter (fun r => r.id != id) }
          .ok (true, { st2 with
            managed_subscribers := st2.managed_subscribers.filter (fun p => p.1 != id) })

/-- The body of `load_from_db`, iterating the persisted subscriber rows in
order.  Every row first yields a managed entry with status Ok; on a missing
or unloaded plugin, or a missing component, the entry's status is set to
`Error` and the function returns (`return`, not `continue`) — the
remaining rows are not processed; otherwise the component is recorded and,
for a persisted `enabled=True` row, `_register_subscriber` is called. -/
def load_rows (st : SubMgrState) : List SubRow → Except PyError SubMgrState
  | [] => .ok st
  | row :: rest =>
      let ms : ManagedSubscriber := { db_info := row, status := true }
      let st1 := { st with
        managed_subscribers := ainsert st.managed_subscribers row.id ms }
      match (PluginManager.find_plugin_desc st1.plugins row.plugin_name).bind
          (fun pd => pd.plugin) with
      | none =>
          .ok { st1 with
            managed_subscribers := aupdate st1.managed_subscribers row.id
              (fun m => { m with status := false }) }
      | some plugin =>
          match plugin.find_component row.component_name with
          | none =>
              .ok { st1 with
                managed_subscribers := aupdate st1.managed_subscribers row.id
                  (fun m => { m with status := false }) }
          | some comp =>
              let st2 := { st1 with
                managed_subscribers := aupdate st1.managed_subscribers row.id
                  (fun m => { m with component := some comp }) }
              if row.enabled then
                match _register_subscriber st2 row.id with
                | .error e => .error e
                | .ok (_, st3) => load_rows st3 rest
              else load_rows st2 rest

def load_from_db (st : SubMgrState) : Except PyError SubMgrState :=
  load_rows st st.db_subscribers

end SubscriberManager

/-! ### Claims C4, C5 and C10 -/

def c4Row1 : SubRow :=
  { id := 1, name := "s1", enabled := true, plugin_name := "p", component_name := "c" }

def c4Row2 : SubRow :=
  { id := 2, name := "s2", enabled := true, plugin_name := "p", component_name := "c" }

def c4State : SubMgrState :=
  { managed_subscribers := [], db_subscribers := [c4Row1, c4Row2], plugins := [],
    registrar := SubscriptionRegistrar.empty, next_obj := 0 }

/-- Claim C4 (the code diverges): with two persisted `enabled=True`
subscribers whose plugin `"p"` is not installed, `load_from_db` completes
normally, but — the missing-plugin branch ends in `return` rather than
`continue` — only the first record yields a managed entry (with
`status = Error` and the persisted enabled flag intact); the second record
is never processed and yields no entry at all. -/
theorem C4_load_from_db_stops_at_first_missing_plugin :
    (SubscriberManager.load_from_db c4State).map
        (fun s => (alookup s.managed_subscribers 1, alookup s.managed_subscribers 2))
      = .ok (some { db_info := c4Row1, status := false }, none) ∧
    c4Row1.enabled = true ∧ c4Row2.enabled = true :=
  ⟨rfl, rfl, rfl⟩

/-- Claim C5 (counterexample): a whitelisted plugin whose `load()` raises
makes `init_plugins` itself raise — it does not complete, and no
`plugin=None` slot is recorded for the failing plugin. -/
theorem C5_raising_plugin_load_propagates :
    PluginManager.init_plugins ["p1"]
      [{ name := "p1", load_result := .error .valueError }] = .error .valueError :=
  rfl

/-- Claim C5 (amended): an exception raised while loading a plugin is NOT
caught: the first raising whitelisted entry point aborts the whole
comprehension and propagates out of `init_plugins`, so no descriptor list
is recorded.  When no whitelisted load raises, `init_plugins` completes
with one descriptor per enumerated entry point, in order: whitelisted
plugins are loaded, and `plugin=None` is recorded exactly for the
non-whitelisted ones.  A dependent entity whose persisted plugin is
missing or unloaded surfaces the failure only as `status=Error` when the
subscriber manager restores it, its persisted state intact. -/
theorem C5_plugin_load_exception_propagates_amended :
    (∀ (wl : List String) (pre : List EntryPointModel) (ep : EntryPointModel)
        (post : List EntryPointModel) (e : PyError),
      (∀ q ∈ pre, wl.contains q.name = true → ∃ p, q.load_result = .ok p) →
      wl.contains ep.name = true → ep.load_result = .error e →
      PluginManager.init_plugins wl (pre ++ ep :: post) = .error e) ∧
    (∀ (wl : List String) (eps : List EntryPointModel),
      (∀ q ∈ eps, wl.contains q.name = true → ∃ p, q.load_result = .ok p) →
      ∃ ds, PluginManager.init_plugins wl eps = .ok ds ∧
        List.Forall₂ (fun (ep : EntryPointModel) (d : PluginDescriptor) =>
          d.name = ep.name ∧
          ((wl.contains ep.name = true ∧
              ∃ p, ep.load_result = .ok p ∧ d.plugin = some p) ∨
           (wl.contains ep.name = false ∧ d.plugin = none))) eps ds) ∧
    (∀ (st : SubMgrState) (row : SubRow),
      st.db_subscribers = [row] → st.managed_subscribers = [] →
      (PluginManager.find_plugin_desc st.plugins row.plugin_name).bind
          (fun pd => pd.plugin) = none →
      ∃ st', SubscriberManager.load_from_db st = .ok st' ∧
        alookup st'.managed_subscribers row.id
          = some { db_info := row, status := false } ∧
        ({ db_info := row, status := false } : ManagedSubscriber).db_info.enabled
          = row.enabled) := by
  refine ⟨?_, ?_, ?_⟩
  · intro wl pre ep post e
    induction pre with
    | nil =>
        intro _ hwl herr
        simp only [List.nil_append]
        unfold PluginManager.init_plugins
        rw [if_pos hwl]
        simp only [PluginManager._load_plugin, herr, Except.map]
    | cons q pre' ih =>
        intro hpre hwl herr
        have hq := hpre q (List.mem_cons_self _ _)
        have hpre' : ∀ q' ∈ pre', wl.contains q'.name = true →
            ∃ p, q'.load_result = .ok p :=
          fun q' hq' => hpre q' (List.mem_cons_of_mem _ hq')
        simp only [List.cons_append]
        unfold PluginManager.init_plugins
        cases hqw : wl.contains q.name with
        | false =>
            rw [if_neg Bool.false_ne_true, ih hpre' hwl herr]
            rfl
        | true =>
            obtain ⟨p, hp⟩ := hq hqw
            rw [if_pos rfl, show PluginManager._load_plugin q = .ok p from hp,
              ih hpre' hwl herr]
            rfl
  · intro wl eps
    induction eps with
    | nil => exact fun _ => ⟨[], rfl, List.Forall₂.nil⟩
    | cons ep rest ih =>
        intro h
        obtain ⟨ds, hds, hrel⟩ := ih (fun q hq => h q (List.mem_cons_of_mem _ hq))
        cases hw : wl.contains ep.name with
        | true =>
            obtain ⟨p, hp⟩ := h ep (List.mem_cons_self _ _) hw
            refine ⟨{ name := ep.name, plugin := some p } :: ds, ?_, ?_⟩
            · unfold PluginManager.init_plugins
              rw [if_pos hw, show PluginManager._load_plugin ep = .ok p from hp, hds]
              rfl
            · exact List.Forall₂.cons ⟨rfl, Or.inl ⟨hw, p, hp, rfl⟩⟩ hrel
        | false =>
            refine ⟨{ name := ep.name, plugin := none } :: ds, ?_, ?_⟩
            · unfold PluginManager.init_plugins
              rw [if_neg (by rw [hw]; exact Bool.false_ne_true), hds]
              rfl
            · exact List.Forall₂.cons ⟨rfl, Or.inr ⟨hw, rfl⟩⟩ hrel
  · intro st row hdb hm hplug
    have hload : SubscriberManager.load_from_db st
        = .ok { st with
            managed_subscribers :=
              aupdate (ainsert st.managed_subscribers row.id
                  { db_info := row, status := true })
                row.id (fun m => { m with status := false }) } := by
      unfold SubscriberManager.load_from_db
      conv_lhs => rw [hdb]
      unfold SubscriberManager.load_rows
      dsimp only []
      rw [hplug]
    refine ⟨_, hload, ?_, rfl⟩
    rw [hm]
    simp [ainsert, alookup, aupdate]

def c5EpRaising : EntryPointModel := { name := "p1", load_result := .error .valueError }

def c5EpOk1 : EntryPointModel := { name := "p1", load_result := .ok { components := [] } }

def c5EpOther : EntryPointModel := { name := "p2", load_result := .ok { components := [] } }

def c5Row : SubRow :=
  { id := 4, name := "s4", enabled := true, plugin_name := "gone", component_name := "c" }

def c5State : SubMgrState :=
  { managed_subscribers := [], db_subscribers := [c5Row], plugins := [],
    registrar := SubscriptionRegistrar.empty, next_obj := 0 }

theorem C5_plugin_load_exception_propagates_amended_witness :
    PluginManager.init_plugins ["p1"] ([] ++ c5EpRaising :: [c5EpOther])
      = .error .valueError ∧
    (∃ ds, PluginManager.init_plugins ["p1"] [c5EpOk1, c5EpOther] = .ok ds ∧
      List.Forall₂ (fun (ep : EntryPointModel) (d : PluginDescriptor) =>
        d.name = ep.name ∧
        ((["p1"].contains ep.name = true ∧
            ∃ p, ep.load_result = .ok p ∧ d.plugin = some p) ∨
         (["p1"].contains ep.name = false ∧ d.plugin = none)))
        [c5EpOk1, c5EpOther] ds) ∧
    (∃ st', SubscriberManager.load_from_db c5State = .ok st' ∧
      alookup st'.managed_subscribers c5Row.id
        = some { db_info := c5Row, status := false } ∧
      ({ db_info := c5Row, status := false } : ManagedSubscriber).db_info.enabled
        = c5Row.enabled) :=
  ⟨C5_plugin_load_exception_propagates_amended.1 ["p1"] [] c5EpRaising [c5EpOther]
      .valueError (fun q hq => absurd hq (List.not_mem_nil q)) rfl rfl,
   C5_plugin_load_exception_propagates_amended.2.1 ["p1"] [c5EpOk1, c5EpOther]
     (by
       intro q hq _
       refine ⟨{ components := [] }, ?_⟩
       simp only [List.mem_cons, List.mem_singleton] at hq
       rcases hq with rfl | rfl | h
       · rfl
       · rfl
       · exact absurd h (List.not_mem_nil q)),
   C5_plugin_load_exception_propagates_amended.2.2 c5State c5Row rfl rfl rfl⟩

/-- Claim C10: removing an id that is not in the manager's in-memory map from
either `VideoSourceManager` or `SubscriberManager` returns `False` and
leaves the whole state unchanged — no row deleted, no alert marked, no
subscription disposed, no map modified. -/
theorem C10_remove_unknown_id_is_noop :
    (∀ (st : ManagerState) (id : Nat), alookup st.video_sources id = none →
      VideoSourceManager.remove_video_source st id = .ok (false, st)) ∧
    (∀ (st : SubMgrState) (id : Nat), alookup st.managed_subscribers id = none →
      SubscriberManager.remove_subscriber st id = .ok (false, st)) := by
  constructor
  · intro st id h
    unfold VideoSourceManager.remove_video_source
    rw [h]
  · intro st id h
    unfold SubscriberManager.remove_subscriber
    rw [h]

def c10VState : ManagerState :=
  { video_sources := [], db_video_sources := [], alert_db := [],
    registrar := SubscriptionRegistrar.empty, dispose_log := [], next_obj := 0 }

def c10SState : SubMgrState :=
  { managed_subscribers := [], db_subscribers := [], plugins := [],
    registrar := SubscriptionRegistrar.empty, next_obj := 0 }

theorem C10_remove_unknown_id_is_noop_witness :
    alookup c10VState.video_sources 3 = none ∧
    VideoSourceManager.remove_video_source c10VState 3 = .ok (false, c10VState) ∧
    alookup c10SState.managed_subscribers 3 = none ∧
    SubscriberManager.remove_subscriber c10SState 3 = .ok (false, c10SState) :=
  ⟨rfl, C10_remove_unknown_id_is_noop.1 c10VState 3 rfl,
   rfl, C10_remove_unknown_id_is_noop.2 c10SState 3 rfl⟩

end Sentinel
